import Mathlib

/-!
Verification of the polymarket-arbitrage scanner core against its
natural-language specification.

The embedding translates the Python sources into executable Lean
definitions:
- `position_tracker.py` : `Position`, `Trade`, `TrackerDB`, `createPosition`,
  `addTrade` (with the `UNIQUE` constraint on `order_hash` and the sqlite
  transaction semantics: a constraint violation aborts the whole call and
  leaves the database untouched), `logDryRunOpportunity`.
- `market_fetcher.py` : `Market`, `RawMarket`, `RawEvent`, `parseMarket`,
  `fetchMarketList`, `refreshPrices`.  The upstream HTTP interaction is
  represented by an `UpstreamResponse` value (failure, or a status code with
  a list of raw events).
- `main.py` : `calculateBalancedSize` with its downward cent-by-cent search,
  `analyzeMarket`, `executeArbitrage`, and the error-backoff logic of
  `_main_loop` / `_handle_cycle_error`.

Python floats are modelled as rationals (`ℚ`); `None`-able arguments as
`Option`; exceptions as `Except` results.
-/

namespace PolyArb

/-- One row of the `positions` table (`position_tracker.py`, dataclass
`Position` / table `positions`). -/
structure Position where
  marketId : String
  marketTitle : String
  qtyYes : ℚ
  costYes : ℚ
  qtyNo : ℚ
  costNo : ℚ
  profitLocked : Bool
deriving Repr, DecidableEq

/-- `Position.avg_yes`: average cost per YES share. -/
def Position.avgYes (p : Position) : ℚ :=
  if 0 < p.qtyYes then p.costYes / p.qtyYes else 0

/-- `Position.avg_no`: average cost per NO share. -/
def Position.avgNo (p : Position) : ℚ :=
  if 0 < p.qtyNo then p.costNo / p.qtyNo else 0

/-- `Position.guaranteed_profit`: zero while either leg is empty, otherwise
`min qty_yes qty_no - (cost_yes + cost_no)`. -/
def Position.guaranteedProfit (p : Position) : ℚ :=
  if p.qtyYes ≤ 0 ∨ p.qtyNo ≤ 0 then 0
  else min p.qtyYes p.qtyNo - (p.costYes + p.costNo)

/-- One row of the `trades` table. The `qty` column stores the ACTUAL filled
quantity (the code inserts `actual_qty`). -/
structure Trade where
  positionId : Nat
  side : String
  qty : ℚ
  price : ℚ
  cost : ℚ
  orderHash : String
  status : String
deriving Repr, DecidableEq

/-- The sqlite database behind `PositionTracker`: the `positions` table keyed
by the autoincrement id, the `trades` table (whose `order_hash` column is
`UNIQUE`), and the next autoincrement value. -/
structure TrackerDB where
  positions : List (Nat × Position)
  trades : List Trade
  nextPositionId : Nat
deriving Repr, DecidableEq

/-- `PositionTracker.create_position`: inserts a fresh row with zero
quantities and returns its id. -/
def createPosition (db : TrackerDB) (marketId marketTitle : String) :
    TrackerDB × Nat :=
  let pid := db.nextPositionId
  ({ positions := db.positions ++
      [(pid, { marketId := marketId, marketTitle := marketTitle,
               qtyYes := 0, costYes := 0, qtyNo := 0, costNo := 0,
               profitLocked := false })],
     trades := db.trades,
     nextPositionId := pid + 1 }, pid)

/-- The fill-status classification of `PositionTracker.add_trade`:
`"filled"` unless a filled quantity was supplied that is truthy in Python
(i.e. not `None` and nonzero) and below 99% of the requested quantity. -/
def fillStatus (qty : ℚ) (filledQty : Option ℚ) : String :=
  match filledQty with
  | some f => if f ≠ 0 ∧ f < qty * (99 / 100) then "partial" else "filled"
  | none => "filled"

/-- The `UPDATE positions SET ...` statement of `add_trade`: adds the actual
quantity and cost to the side named by `side` (`"YES"` updates the YES
columns, anything else the NO columns) of the row with the given id. -/
def updatePositionSide (ps : List (Nat × Position)) (pid : Nat) (side : String)
    (actualQty cost : ℚ) : List (Nat × Position) :=
  ps.map (fun pr =>
    if pr.1 = pid then
      if side = "YES" then
        (pr.1, { pr.2 with qtyYes := pr.2.qtyYes + actualQty,
                           costYes := pr.2.costYes + cost })
      else
        (pr.1, { pr.2 with qtyNo := pr.2.qtyNo + actualQty,
                           costNo := pr.2.costNo + cost })
    else pr)

/-- `PositionTracker.add_trade`. The `INSERT INTO trades` runs before the
position update; if `order_hash` already occurs in the `trades` table the
`UNIQUE` constraint makes the insert raise, so the call fails without
touching the database (the surrounding transaction commits nothing). -/
def addTrade (db : TrackerDB) (positionId : Nat) (side : String)
    (qty price : ℚ) (orderHash : String) (filledQty : Option ℚ) :
    Except String TrackerDB :=
  let actualQty := filledQty.getD qty
  let cost := actualQty * price
  if db.trades.any (fun t => t.orderHash == orderHash) then
    Except.error "UNIQUE constraint failed: trades.order_hash"
  else
    Except.ok
      { positions := updatePositionSide db.positions positionId side actualQty cost,
        trades := db.trades ++
          [{ positionId := positionId, side := side, qty := actualQty,
             price := price, cost := cost, orderHash := orderHash,
             status := fillStatus qty filledQty }],
        nextPositionId := db.nextPositionId }

/-- A call to `add_trade` as the caller sees it: on success the new database,
on an integrity error the database exactly as it was, together with the
error message. -/
def applyAddTrade (db : TrackerDB) (positionId : Nat) (side : String)
    (qty price : ℚ) (orderHash : String) (filledQty : Option ℚ) :
    TrackerDB × Option String :=
  match addTrade db positionId side qty price orderHash filledQty with
  | Except.ok db2 => (db2, none)
  | Except.error e => (db, some e)

/-- One row of the `dry_run_opportunities` table, as written by
`PositionTracker.log_dry_run_opportunity`. -/
structure DryRunOpportunity where
  marketSlug : String
  marketTitle : String
  yesPrice : ℚ
  noPrice : ℚ
  pairCost : ℚ
  guaranteedProfit : ℚ
  profitPct : ℚ
  status : String
deriving Repr, DecidableEq

/-- `PositionTracker.log_dry_run_opportunity`. -/
def logDryRunOpportunity (marketSlug marketTitle : String)
    (yesPrice noPrice : ℚ) : DryRunOpportunity :=
  let pairCost := yesPrice + noPrice
  let guaranteedProfit := 1 - pairCost
  let profitPct :=
    if 0 < pairCost then guaranteedProfit / (yesPrice + noPrice) * 100 else 0
  { marketSlug := marketSlug, marketTitle := marketTitle,
    yesPrice := yesPrice, noPrice := noPrice, pairCost := pairCost,
    guaranteedProfit := guaranteedProfit, profitPct := profitPct,
    status := "detected" }

/- Concrete data used by witnesses and counterexamples for the ledger. -/

/-- A fresh position row, as `create_position` writes it. -/
def posBtc0 : Position :=
  { marketId := "btc-1", marketTitle := "Bitcoin Up or Down",
    qtyYes := 0, costYes := 0, qtyNo := 0, costNo := 0, profitLocked := false }

/-- A database holding one fresh position and no trades. -/
def witnessDb0 : TrackerDB :=
  { positions := [(1, posBtc0)], trades := [], nextPositionId := 2 }

/-- The database after recording a first YES fill on `witnessDb0`. -/
def witnessDb1 : TrackerDB :=
  (applyAddTrade witnessDb0 1 "YES" 100 (52 / 100) "0xaaa" none).1

/-- C1: recording a fill twice with the same execution reference
(`order_hash`) leaves the ledger exactly as it was after the first call.
If the first `addTrade` with hash `h` succeeds, then any second `addTrade`
with the same hash (any position, side, quantity, price or filled quantity)
is rejected by the `UNIQUE` constraint: the caller-visible result is the
unchanged database `db2` together with the duplicate-reference error, so no
second accumulation of `qty_yes`/`cost_yes`/`qty_no`/`cost_no` happens. -/
theorem addTrade_duplicate_ref_rejected (db db2 : TrackerDB)
    (p1 : Nat) (s1 : String) (q1 pr1 : ℚ) (h : String) (f1 : Option ℚ)
    (p2 : Nat) (s2 : String) (q2 pr2 : ℚ) (f2 : Option ℚ)
    (hfirst : addTrade db p1 s1 q1 pr1 h f1 = Except.ok db2) :
    applyAddTrade db2 p2 s2 q2 pr2 h f2 =
      (db2, some "UNIQUE constraint failed: trades.order_hash") := by
  unfold addTrade at hfirst
  by_cases hdup : db.trades.any (fun t => t.orderHash == h) = true
  · rw [if_pos hdup] at hfirst
    exact Except.noConfusion hfirst
  · simp only [Bool.not_eq_true] at hdup
    simp only [hdup, Bool.false_eq_true, if_false, Except.ok.injEq] at hfirst
    subst hfirst
    unfold applyAddTrade addTrade
    simp [List.any_append]

/-- Witness for C1: on a concrete one-position database, a first YES fill
with hash `"0xaaa"` succeeds, and a second call with the same hash is
rejected with the database unchanged. -/
theorem addTrade_duplicate_ref_rejected_witness :
    applyAddTrade witnessDb1 1 "NO" 100 (45 / 100) "0xaaa" none =
      (witnessDb1, some "UNIQUE constraint failed: trades.order_hash") :=
  addTrade_duplicate_ref_rejected witnessDb0 witnessDb1
    1 "YES" 100 (52 / 100) "0xaaa" none 1 "NO" 100 (45 / 100) none rfl

/-- C8 counterexample: a fill notification with `filled_qty = 0` is stored
with status `"filled"` although 0 is not at least 99% of the requested 100
shares.  Python's `if filled_qty and ...` treats `0.0` as falsy, so the
partial branch is skipped.  This refutes the claim that the stored status is
`"partial"` whenever the actual filled quantity is below 99% of the request. -/
theorem fillStatus_zero_filled_counterexample :
    (applyAddTrade witnessDb0 1 "YES" 100 (1 / 2) "0xzero" (some 0)).1.trades.map
        (fun t => t.status) = ["filled"] ∧
    ¬ ((100 : ℚ) * (99 / 100) ≤ 0) := by
  constructor
  · rfl
  · norm_num

/-- C8 amended: when a nonzero filled quantity `f` is supplied and the
execution reference is fresh, `addTrade` succeeds and appends a trade row
storing the actual quantity `f`, cost `f * price`, and status `"partial"`
exactly when `f` is below 99% of the requested quantity, `"filled"`
otherwise.  (A supplied `filled_qty = 0` or an omitted one yields
`"filled"`, by the counterexample.) -/
theorem addTrade_partial_fill_classification (db : TrackerDB) (pid : Nat)
    (side : String) (qty price : ℚ) (h : String) (f : ℚ)
    (hfresh : db.trades.any (fun t => t.orderHash == h) = false)
    (hf0 : f ≠ 0) :
    (applyAddTrade db pid side qty price h (some f)).1.trades =
      db.trades ++
        [{ positionId := pid, side := side, qty := f, price := price,
           cost := f * price, orderHash := h,
           status := if f < qty * (99 / 100) then "partial" else "filled" }] ∧
    (applyAddTrade db pid side qty price h (some f)).2 = none := by
  unfold applyAddTrade addTrade
  simp [hfresh, fillStatus, hf0]

/-- Witness for C8: the spec's partial-fill scenario.  Recording
`qty = 100, price = 0.5, filled_qty = 60` on a fresh position stores a trade
with quantity 60, cost 30 and status `"partial"`, and accumulates
`qty_yes = 60`, `cost_yes = 30` on the position. -/
theorem addTrade_partial_fill_classification_witness :
    ((applyAddTrade witnessDb0 1 "YES" 100 (1 / 2) "0xbbb" (some 60)).1.trades =
        witnessDb0.trades ++
          [{ positionId := 1, side := "YES", qty := 60, price := 1 / 2,
             cost := 60 * (1 / 2), orderHash := "0xbbb",
             status := if (60 : ℚ) < 100 * (99 / 100) then "partial" else "filled" }] ∧
      (applyAddTrade witnessDb0 1 "YES" 100 (1 / 2) "0xbbb" (some 60)).2 = none) ∧
    (applyAddTrade witnessDb0 1 "YES" 100 (1 / 2) "0xbbb" (some 60)).1.positions =
      [(1, { marketId := "btc-1", marketTitle := "Bitcoin Up or Down",
             qtyYes := 60, costYes := 30, qtyNo := 0, costNo := 0,
             profitLocked := false })] ∧
    (60 : ℚ) < 100 * (99 / 100) :=
  ⟨addTrade_partial_fill_classification witnessDb0 1 "YES" 100 (1 / 2) "0xbbb" 60
      rfl (by norm_num),
   by norm_num [applyAddTrade, addTrade, updatePositionSide, fillStatus,
     witnessDb0, posBtc0],
   by norm_num⟩

/-! ### market_fetcher.py -/

/-- The `Market` dataclass of `market_fetcher.py`.  Timestamps are modelled
as integers. -/
structure Market where
  marketId : String
  title : String
  description : String
  yesPrice : ℚ
  noPrice : ℚ
  timestamp : ℤ
  liquidity : ℚ
  volume24h : ℚ
  conditionId : String
  slug : String
  endTime : Option ℤ
deriving Repr, DecidableEq

/-- A raw market record from the Gamma events endpoint, as `_parse_market`
reads it.  `outcomePrices = none` models an `outcomePrices` JSON string that
fails to parse; `endDate = none` a missing or unparseable end date. -/
structure RawMarket where
  id : String
  question : String
  description : String
  outcomePrices : Option (List ℚ)
  active : Bool
  closed : Bool
  liquidity : ℚ
  volume24hr : ℚ
  conditionId : String
  slug : String
  endDate : Option ℤ
deriving Repr, DecidableEq

/-- A raw event from the Gamma events endpoint. -/
structure RawEvent where
  title : String
  active : Bool
  closed : Bool
  markets : List RawMarket
deriving Repr, DecidableEq

/-- The upstream `GET /events` interaction of the fetcher: either the request
fails (timeout or transport exception) or it yields an HTTP status code and
a decoded list of events. -/
inductive UpstreamResponse where
  | failure
  | reply (status : Nat) (events : List RawEvent)
deriving Repr, DecidableEq

/-- The fetcher's mutable state: `self.cached_markets`. -/
structure FetcherState where
  cachedMarkets : List Market
deriving Repr, DecidableEq

/-- Whether the first list of characters starts the second one. -/
def headMatches : List Char → List Char → Bool
  | [], _ => true
  | _ :: _, [] => false
  | a :: as, b :: bs => a == b && headMatches as bs

/-- Whether the first list of characters occurs contiguously in the second. -/
def subOccurs (needle : List Char) : List Char → Bool
  | [] => headMatches needle []
  | b :: bs => headMatches needle (b :: bs) || subOccurs needle bs

/-- Python's `needle in hay` on strings. -/
def strContainsSub (hay needle : String) : Bool :=
  subOccurs needle.toList hay.toList

/-- Python's `str.lower`. -/
def strLower (s : String) : String :=
  String.mk (s.toList.map Char.toLower)

/-- `PolymarketFetcher._parse_market`: reject records whose outcome prices
are unparseable or shorter than two entries, otherwise build a `Market`
stamped with the current time. -/
def parseMarket (now : ℤ) (raw : RawMarket) : Option Market :=
  match raw.outcomePrices with
  | none => none
  | some prices =>
    match prices with
    | p0 :: p1 :: _ =>
      some { marketId := raw.id, title := raw.question,
             description := raw.description, yesPrice := p0, noPrice := p1,
             timestamp := now, liquidity := raw.liquidity,
             volume24h := raw.volume24hr, conditionId := raw.conditionId,
             slug := raw.slug, endTime := raw.endDate }
    | _ => none

/-- The event filter of `fetch_market_list`: the lowercased title must
contain `"up or down"` and one of the lowercased asset names, and the event
must be active and not closed. -/
def eventMatches (assetsLower : List String) (e : RawEvent) : Bool :=
  let title := strLower e.title
  strContainsSub title "up or down" &&
  assetsLower.any (fun a => strContainsSub title (strLower a)) &&
  (e.active && !e.closed)

/-- `PolymarketFetcher.fetch_market_list`: full discovery.  On a transport
failure or a non-200 status it returns `[]` and leaves the cache untouched;
on success it filters events by asset, parses the active markets of the
surviving events, replaces the cache wholesale and returns the new list. -/
def fetchMarketList (st : FetcherState) (resp : UpstreamResponse)
    (assets : Option (List String)) (now : ℤ) : List Market × FetcherState :=
  let assetList := assets.getD ["Bitcoin"]
  let assetsLower := assetList.map strLower
  match resp with
  | UpstreamResponse.failure => ([], st)
  | UpstreamResponse.reply status events =>
    if status ≠ 200 then ([], st)
    else
      let filteredEvents := events.filter (eventMatches assetsLower)
      let markets := filteredEvents.flatMap (fun event =>
        (event.markets.filter (fun m => m.active && !m.closed)).filterMap
          (parseMarket now))
      (markets, { cachedMarkets := markets })

/-- `PolymarketFetcher.refresh_prices`.  With an empty cache it falls back to
full discovery (defaulting the assets to `["Bitcoin"]`).  With a non-empty
cache, a transport failure or non-200 status returns the stale cache
unmodified; otherwise every cached market still present upstream (matching
by id against the last raw record with that non-empty id, as the Python dict
insertion does) is re-parsed, silently dropping the ones that disappeared.
The cache itself is not replaced by a refresh. -/
def refreshPrices (st : FetcherState) (resp : UpstreamResponse)
    (assets : Option (List String)) (now : ℤ) : List Market × FetcherState :=
  if st.cachedMarkets.isEmpty then
    fetchMarketList st resp (some (assets.getD ["Bitcoin"])) now
  else
    match resp with
    | UpstreamResponse.failure => (st.cachedMarkets, st)
    | UpstreamResponse.reply status events =>
      if status ≠ 200 then (st.cachedMarkets, st)
      else
        let marketList :=
          (events.flatMap (fun e => e.markets)).filter (fun m => m.id != "")
        let updated := st.cachedMarkets.filterMap (fun cached =>
          match marketList.reverse.find? (fun raw => raw.id == cached.marketId) with
          | some raw => parseMarket now raw
          | none => none)
        (updated, st)

/-- Whether the upstream market-data source is unreachable or answered with
a non-success status. -/
def upstreamUnavailable : UpstreamResponse → Bool
  | UpstreamResponse.failure => true
  | UpstreamResponse.reply status _ => status != 200

/- Concrete fetcher data for witnesses and counterexamples. -/

/-- A raw market with well-formed prices. -/
def sampleRawMarket : RawMarket :=
  { id := "m1", question := "Bitcoin Up or Down?", description := "",
    outcomePrices := some [52 / 100, 45 / 100], active := true,
    closed := false, liquidity := 1000, volume24hr := 0,
    conditionId := "c1", slug := "bitcoin-up-or-down", endDate := none }

/-- A raw event whose title passes the Bitcoin up-or-down filter. -/
def sampleRawEvent : RawEvent :=
  { title := "Bitcoin Up or Down - October 12", active := true,
    closed := false, markets := [sampleRawMarket] }

/-- The parsed form of `sampleRawMarket` at time 0. -/
def sampleParsedMarket : Market :=
  { marketId := "m1", title := "Bitcoin Up or Down?", description := "",
    yesPrice := 52 / 100, noPrice := 45 / 100, timestamp := 0,
    liquidity := 1000, volume24h := 0, conditionId := "c1",
    slug := "bitcoin-up-or-down", endTime := none }

/-- C6 counterexample: calling `refresh_prices` with an empty cache is NOT a
no-op returning an empty sentinel — on a concrete reachable upstream with
one matching event it performs the discovery itself, returns the discovered
(non-empty) market list and replaces the cache with it. -/
theorem refresh_empty_cache_counterexample :
    (refreshPrices { cachedMarkets := [] }
        (UpstreamResponse.reply 200 [sampleRawEvent]) none 0).1 =
      [sampleParsedMarket] ∧
    ([sampleParsedMarket] : List Market) ≠ [] ∧
    (refreshPrices { cachedMarkets := [] }
        (UpstreamResponse.reply 200 [sampleRawEvent]) none 0).2.cachedMarkets =
      [sampleParsedMarket] := by
  refine ⟨rfl, ?_, rfl⟩
  intro h
  exact List.noConfusion h

/-- C6 amended: `refresh_prices` with an empty cache does not return an
empty sentinel; it falls back to full discovery itself, calling
`fetch_market_list` with the assets defaulted to `["Bitcoin"]`, and on a
status-200 reply the cache afterwards holds exactly the returned list. -/
theorem refresh_empty_cache_runs_discovery (st : FetcherState)
    (assets : Option (List String)) (now : ℤ) (status : Nat)
    (events : List RawEvent) (hempty : st.cachedMarkets = [])
    (hstatus : status = 200) :
    refreshPrices st (UpstreamResponse.reply status events) assets now =
      fetchMarketList st (UpstreamResponse.reply status events)
        (some (assets.getD ["Bitcoin"])) now ∧
    (refreshPrices st (UpstreamResponse.reply status events) assets now).2.cachedMarkets =
      (refreshPrices st (UpstreamResponse.reply status events) assets now).1 := by
  subst hstatus
  constructor
  · simp [refreshPrices, hempty]
  · simp [refreshPrices, fetchMarketList, hempty]

/-- Witness for C6 (amended): the delegation at a concrete empty-cache state
and a concrete 200 reply. -/
theorem refresh_empty_cache_runs_discovery_witness :
    refreshPrices { cachedMarkets := [] }
        (UpstreamResponse.reply 200 [sampleRawEvent]) none 0 =
      fetchMarketList { cachedMarkets := [] }
        (UpstreamResponse.reply 200 [sampleRawEvent])
        (some ((none : Option (List String)).getD ["Bitcoin"])) 0 ∧
    (refreshPrices { cachedMarkets := [] }
        (UpstreamResponse.reply 200 [sampleRawEvent]) none 0).2.cachedMarkets =
      (refreshPrices { cachedMarkets := [] }
        (UpstreamResponse.reply 200 [sampleRawEvent]) none 0).1 :=
  refresh_empty_cache_runs_discovery { cachedMarkets := [] } none 0 200
    [sampleRawEvent] rfl rfl

/-- C7: when the cache is non-empty and the upstream source is unreachable
or answers with a non-200 status, `refresh_prices` returns the last cached
snapshot list unmodified (and leaves the state untouched) instead of
failing, so the caller always has a possibly-stale snapshot. -/
theorem refresh_returns_stale_cache (st : FetcherState)
    (resp : UpstreamResponse) (assets : Option (List String)) (now : ℤ)
    (hne : st.cachedMarkets ≠ [])
    (hun : upstreamUnavailable resp = true) :
    refreshPrices st resp assets now = (st.cachedMarkets, st) := by
  have hem : st.cachedMarkets.isEmpty = false := by
    cases hcm : st.cachedMarkets with
    | nil => exact absurd hcm hne
    | cons a l => rfl
  cases resp with
  | failure => simp [refreshPrices, hem]
  | reply status events =>
    have hs : status ≠ 200 := by
      simpa [upstreamUnavailable] using hun
    simp [refreshPrices, hem, hs]

/-- Witness for C7: a concrete one-element cache is returned unmodified on a
transport failure. -/
theorem refresh_returns_stale_cache_witness :
    refreshPrices { cachedMarkets := [sampleParsedMarket] }
        UpstreamResponse.failure none 0 =
      ([sampleParsedMarket], { cachedMarkets := [sampleParsedMarket] }) :=
  refresh_returns_stale_cache { cachedMarkets := [sampleParsedMarket] }
    UpstreamResponse.failure none 0 (by intro h; exact List.noConfusion h) rfl

/-! ### main.py — balanced sizing -/

/-- Python's `int(...)` on a rational: truncation toward zero. -/
def pyInt (q : ℚ) : ℤ :=
  if q < 0 then -⌊-q⌋ else ⌊q⌋

/-- The downward search of `GabagoolScanner._calculate_balanced_size`:
`for spend in range(K, 0, -1)` with `spend = spend / 100.0`, returning the
first (largest) spend level whose equal-dollar allocation has both
quantities positive and balance ratio at least `1 - tolerance`. -/
def balancedSearch (yesPrice noPrice tolerancePct : ℚ) : Nat → Option ℚ
  | 0 => none
  | k + 1 =>
    if 0 < ((k : ℚ) + 1) / 100 / yesPrice ∧
        0 < ((k : ℚ) + 1) / 100 / noPrice ∧
        1 - tolerancePct ≤
          min (((k : ℚ) + 1) / 100 / yesPrice) (((k : ℚ) + 1) / 100 / noPrice) /
            max (((k : ℚ) + 1) / 100 / yesPrice) (((k : ℚ) + 1) / 100 / noPrice) then
      some (((k : ℚ) + 1) / 100)
    else
      balancedSearch yesPrice noPrice tolerancePct k

/-- `GabagoolScanner._calculate_balanced_size`: run the cent-by-cent search
from `int(max_spend * 100)` downward; if no level is balanced within
tolerance, fall back to spending `max_spend` on each leg regardless of
imbalance.  Returns `(yes_qty, no_qty, yes_spend, no_spend)`. -/
def calculateBalancedSize (yesPrice noPrice maxSpend tolerancePct : ℚ) :
    ℚ × ℚ × ℚ × ℚ :=
  match balancedSearch yesPrice noPrice tolerancePct
      (pyInt (maxSpend * 100)).toNat with
  | some spend => (spend / yesPrice, spend / noPrice, spend, spend)
  | none => (maxSpend / yesPrice, maxSpend / noPrice, maxSpend, maxSpend)

/-- For positive prices, the balance ratio of the equal-dollar allocation is
the price ratio `min p / max p`, independently of the spend level. -/
theorem equalSpendRatio (py pn s : ℚ) (hy : 0 < py) (hn : 0 < pn)
    (hs : 0 < s) :
    min (s / py) (s / pn) / max (s / py) (s / pn) = min py pn / max py pn := by
  have hy0 := hy.ne'
  have hn0 := hn.ne'
  have hs0 := hs.ne'
  rcases le_total py pn with h | h
  · have hq : s / pn ≤ s / py := (div_le_div_iff_of_pos_left hs hn hy).mpr h
    rw [min_eq_right hq, max_eq_left hq, min_eq_left h, max_eq_right h]
    field_simp
    ring
  · have hq : s / py ≤ s / pn := (div_le_div_iff_of_pos_left hs hy hn).mpr h
    rw [min_eq_left hq, max_eq_right hq, min_eq_right h, max_eq_left h]
    field_simp
    ring

/-- If the price ratio misses the tolerance, every level of the downward
search misses it, so the search returns `none`. -/
theorem balancedSearch_none (py pn tol : ℚ) (hy : 0 < py) (hn : 0 < pn)
    (hc : ¬ (1 - tol ≤ min py pn / max py pn)) :
    ∀ K : Nat, balancedSearch py pn tol K = none := by
  intro K
  induction K with
  | zero => rfl
  | succ k ih =>
    have hs : (0 : ℚ) < ((k : ℚ) + 1) / 100 := by positivity
    simp only [balancedSearch]
    rw [if_neg, ih]
    rintro ⟨-, -, h3⟩
    rw [equalSpendRatio py pn (((k : ℚ) + 1) / 100) hy hn hs] at h3
    exact hc h3

/-- If the price ratio meets the tolerance, the downward search succeeds
immediately at its first (largest) level. -/
theorem balancedSearch_first (py pn tol : ℚ) (hy : 0 < py) (hn : 0 < pn)
    (hc : 1 - tol ≤ min py pn / max py pn) (k : Nat) :
    balancedSearch py pn tol (k + 1) = some (((k : ℚ) + 1) / 100) := by
  have hs : (0 : ℚ) < ((k : ℚ) + 1) / 100 := by positivity
  simp only [balancedSearch]
  rw [if_pos ⟨div_pos hs hy, div_pos hs hn, by
    rw [equalSpendRatio py pn (((k : ℚ) + 1) / 100) hy hn hs]
    exact hc⟩]

/-- When the search comes back empty, `_calculate_balanced_size` returns
the equal-`max_spend` fallback. -/
theorem calcSize_fallback_of_none (yp np maxSpend tol : ℚ)
    (h : balancedSearch yp np tol (pyInt (maxSpend * 100)).toNat = none) :
    calculateBalancedSize yp np maxSpend tol =
      (maxSpend / yp, maxSpend / np, maxSpend, maxSpend) := by
  unfold calculateBalancedSize
  rw [h]

/-- The search at prices `0.52 / 0.45` with tolerance `0.05` returns `none`
at every depth: the equal-dollar ratio `45/52` misses `0.95`. -/
theorem searchMisses052045 (K : Nat) :
    balancedSearch (52 / 100) (45 / 100) (5 / 100) K = none := by
  have hle : (45 : ℚ) / 100 ≤ 52 / 100 := by norm_num
  have hc : ¬ ((1 : ℚ) - 5 / 100 ≤
      min ((52 : ℚ) / 100) (45 / 100) / max ((52 : ℚ) / 100) (45 / 100)) := by
    rw [min_eq_right hle, max_eq_left hle]
    norm_num
  exact balancedSearch_none (52 / 100) (45 / 100) (5 / 100) (by norm_num)
    (by norm_num) hc K

/-- C4 counterexample: at `priceA = 0.52, priceB = 0.45, maxSpend = 100,
tolerance = 0.05` the sizer does NOT return a tolerance-satisfying result:
the equal-dollar ratio is `45/52 < 0.95` at every level, the search fails,
and the fallback `(100/0.52, 100/0.45, 100, 100)` is returned, whose
quantity ratio is below `0.95`. -/
theorem sizer_example_violates_tolerance :
    calculateBalancedSize (52 / 100) (45 / 100) 100 (5 / 100) =
      (100 / (52 / 100), 100 / (45 / 100), 100, 100) ∧
    min ((100 : ℚ) / (52 / 100)) (100 / (45 / 100)) /
        max ((100 : ℚ) / (52 / 100)) (100 / (45 / 100)) < 95 / 100 := by
  constructor
  · exact calcSize_fallback_of_none (52 / 100) (45 / 100) 100 (5 / 100)
      (searchMisses052045 ((pyInt ((100 : ℚ) * 100)).toNat))
  · have h1 : (100 : ℚ) / (52 / 100) ≤ 100 / (45 / 100) := by norm_num
    rw [min_eq_left h1, max_eq_right h1]
    norm_num

/-- C4 amended: at these inputs the search finds no balanced level (the
equal-dollar quantity ratio equals the price ratio `45/52 ≈ 0.865` at every
spend, short of the required `0.95`), so the sizer returns the documented
lossy fallback: `maxSpend = 100` spent on each leg, with quantity ratio
exactly `45/52`, which does not meet the tolerance. -/
theorem sizer_example_returns_fallback :
    calculateBalancedSize (52 / 100) (45 / 100) 100 (5 / 100) =
      (100 / (52 / 100), 100 / (45 / 100), 100, 100) ∧
    min ((100 : ℚ) / (52 / 100)) (100 / (45 / 100)) /
        max ((100 : ℚ) / (52 / 100)) (100 / (45 / 100)) = 45 / 52 ∧
    (45 : ℚ) / 52 < 1 - 5 / 100 := by
  refine ⟨?_, ?_, by norm_num⟩
  · exact calcSize_fallback_of_none (52 / 100) (45 / 100) 100 (5 / 100)
      (searchMisses052045 ((pyInt ((100 : ℚ) * 100)).toNat))
  · have h1 : (100 : ℚ) / (52 / 100) ≤ 100 / (45 / 100) := by norm_num
    rw [min_eq_left h1, max_eq_right h1]
    norm_num

/-- C10: for positive prices the equal-dollar balance ratio at spend `s`
equals the price ratio independently of `s`; consequently the downward
search succeeds at its very first level or at none, and the spend returned
by `_calculate_balanced_size` is either the first level (`maxSpend` rounded
down to a cent) or the fallback `maxSpend` — never a value strictly between
one cent and the first level. -/
theorem balanced_ratio_and_spend_dichotomy (py pn maxSpend tol s : ℚ)
    (hy : 0 < py) (hn : 0 < pn) (hs : 0 < s) :
    min (s / py) (s / pn) / max (s / py) (s / pn) = min py pn / max py pn ∧
    ((calculateBalancedSize py pn maxSpend tol).2.2.1 =
        ((pyInt (maxSpend * 100)).toNat : ℚ) / 100 ∨
      (calculateBalancedSize py pn maxSpend tol).2.2.1 = maxSpend) := by
  refine ⟨equalSpendRatio py pn s hy hn hs, ?_⟩
  by_cases hc : 1 - tol ≤ min py pn / max py pn
  · cases hK : (pyInt (maxSpend * 100)).toNat with
    | zero =>
      right
      unfold calculateBalancedSize
      rw [hK]
      rfl
    | succ k =>
      left
      unfold calculateBalancedSize
      rw [hK, balancedSearch_first py pn tol hy hn hc k]
      push_cast
      rfl
  · right
    unfold calculateBalancedSize
    rw [balancedSearch_none py pn tol hy hn hc]

/-- Witness for C10 at concrete prices `0.52 / 0.45`, spend level 3 and
`maxSpend = 10`. -/
theorem balanced_ratio_and_spend_dichotomy_witness :
    min ((3 : ℚ) / (52 / 100)) (3 / (45 / 100)) /
        max ((3 : ℚ) / (52 / 100)) (3 / (45 / 100)) =
      min ((52 : ℚ) / 100) (45 / 100) / max ((52 : ℚ) / 100) (45 / 100) ∧
    ((calculateBalancedSize (52 / 100) (45 / 100) 10 (5 / 100)).2.2.1 =
        ((pyInt ((10 : ℚ) * 100)).toNat : ℚ) / 100 ∨
      (calculateBalancedSize (52 / 100) (45 / 100) 10 (5 / 100)).2.2.1 = 10) :=
  balanced_ratio_and_spend_dichotomy (52 / 100) (45 / 100) 10 (5 / 100) 3
    (by norm_num) (by norm_num) (by norm_num)

/-! ### main.py — scan-cycle error backoff -/

/-- The error-tracking state of `GabagoolScanner._main_loop`. -/
structure LoopState where
  consecutiveErrors : Nat
  stoppedFatal : Bool
deriving Repr, DecidableEq

/-- One failed scan cycle, as `_main_loop` handles it:
`_handle_cycle_error` increments `consecutive_errors`; the backoff time is
`poll_interval_sec * 2 ** consecutive_errors`; if the count has reached
`max_consecutive_errors` the loop breaks fatally WITHOUT sleeping,
otherwise it sleeps the backoff time and retries.  Returns the new state
and the sleep performed, if any. -/
def handleCycleFailure (pollIntervalSec : ℚ) (maxConsecutiveErrors : Nat)
    (s : LoopState) : LoopState × Option ℚ :=
  if maxConsecutiveErrors ≤ s.consecutiveErrors + 1 then
    ({ consecutiveErrors := s.consecutiveErrors + 1, stoppedFatal := true },
     none)
  else
    ({ consecutiveErrors := s.consecutiveErrors + 1, stoppedFatal := false },
     some (pollIntervalSec * 2 ^ (s.consecutiveErrors + 1)))

/-- Run `n` consecutive failing cycles through `_main_loop`, collecting the
backoff sleeps in order; once the loop has stopped fatally no further cycle
runs. -/
def runConsecutiveFailures (pollIntervalSec : ℚ) (maxConsecutiveErrors : Nat) :
    Nat → LoopState → LoopState × List ℚ
  | 0, s => (s, [])
  | n + 1, s =>
    if s.stoppedFatal then (s, [])
    else
      match handleCycleFailure pollIntervalSec maxConsecutiveErrors s with
      | (s2, none) => (s2, [])
      | (s2, some b) =>
        ((runConsecutiveFailures pollIntervalSec maxConsecutiveErrors n s2).1,
         b :: (runConsecutiveFailures pollIntervalSec maxConsecutiveErrors n s2).2)

/-- C2 counterexample: with `basePollInterval = 10` and
`maxConsecutiveErrors = 3`, four consecutive failures produce the sleeps
`[20, 40]` — not `[20, 40, 80]` — because the third failure already reaches
the ceiling (`3 ≥ 3`) and stops the loop fatally before any third backoff
sleep; there is no fourth failure to stop on. -/
theorem backoff_schedule_counterexample :
    (runConsecutiveFailures 10 3 (0 + 1 + 1 + 1 + 1)
        { consecutiveErrors := 0, stoppedFatal := false }).2 = [20, 40] ∧
    ([20, 40] : List ℚ) ≠ [20, 40, 80] ∧
    (runConsecutiveFailures 10 3 (0 + 1 + 1 + 1)
        { consecutiveErrors := 0, stoppedFatal := false }).1.stoppedFatal =
      true := by
  refine ⟨?_, ?_, ?_⟩
  · simp only [runConsecutiveFailures, handleCycleFailure]
    norm_num
  · intro h
    simpa using congrArg List.length h
  · simp only [runConsecutiveFailures, handleCycleFailure]
    norm_num

/-- C2 amended: with `basePollInterval = 10` and `maxConsecutiveErrors = 3`
the loop sleeps 20s after the first failure and 40s after the second, and
the third failure reaches the ceiling and stops fatally with no third
sleep.  (With the hardcoded `max_consecutive_errors = 5` of the source the
sleeps are `[20, 40, 80, 160]` and the fifth failure stops.) -/
theorem backoff_two_sleeps_then_fatal_stop :
    runConsecutiveFailures 10 3 (0 + 1 + 1 + 1)
        { consecutiveErrors := 0, stoppedFatal := false } =
      ({ consecutiveErrors := 3, stoppedFatal := true }, [20, 40]) ∧
    runConsecutiveFailures 10 5 (0 + 1 + 1 + 1 + 1 + 1)
        { consecutiveErrors := 0, stoppedFatal := false } =
      ({ consecutiveErrors := 5, stoppedFatal := true },
       [20, 40, 80, 160]) := by
  constructor
  · simp only [runConsecutiveFailures, handleCycleFailure]
    norm_num
  · simp only [runConsecutiveFailures, handleCycleFailure]
    norm_num

/-! ### main.py — market analysis and execution -/

/-- The observable effects of `GabagoolScanner._analyze_market` on one
market: whether the liquidity guard skipped it, the `dry_run_opportunities`
row logged (if any), the increment applied to `opportunity_count`, the
profit potential when the cost ceiling passed, and whether
`_execute_arbitrage` was invoked. -/
structure AnalyzeResult where
  skippedLowLiquidity : Bool
  loggedOpportunity : Option DryRunOpportunity
  opportunityDelta : Nat
  profitPotential : Option ℚ
  executed : Bool
deriving Repr, DecidableEq

/-- `GabagoolScanner._analyze_market`: skip on insufficient liquidity;
when `yes_price + no_price < target_combined_cost`, log the opportunity,
increment the counter, and execute iff `profit_potential > min_margin`. -/
def analyzeMarket (market : Market) (targetCost minMargin minLiquidity : ℚ) :
    AnalyzeResult :=
  if market.liquidity < minLiquidity then
    { skippedLowLiquidity := true, loggedOpportunity := none,
      opportunityDelta := 0, profitPotential := none, executed := false }
  else if market.yesPrice + market.noPrice < targetCost then
    { skippedLowLiquidity := false,
      loggedOpportunity := some (logDryRunOpportunity market.slug market.title
        market.yesPrice market.noPrice),
      opportunityDelta := 1,
      profitPotential := some (1 - (market.yesPrice + market.noPrice)),
      executed := decide (minMargin < 1 - (market.yesPrice + market.noPrice)) }
  else
    { skippedLowLiquidity := false, loggedOpportunity := none,
      opportunityDelta := 0, profitPotential := none, executed := false }

/-- A market whose pair cost passes the ceiling but whose margin is too
thin: profit potential `0.01` against a minimum margin of `0.02`. -/
def thinMarginMarket : Market :=
  { marketId := "m3", title := "Bitcoin Up or Down 4pm", description := "",
    yesPrice := 1 / 2, noPrice := 49 / 100, timestamp := 0, liquidity := 1000,
    volume24h := 0, conditionId := "c3", slug := "btc-4pm", endTime := none }

/-- C9 counterexample: on a liquid market with `pair_cost = 0.99 < 1` and
`profit = 0.01 ≤ min_margin = 0.02`, the opportunity counter IS incremented
although execution is not attempted — refuting the claim that the counter
increments if and only if the profit potential exceeds the margin. -/
theorem observed_counted_without_margin :
    (analyzeMarket thinMarginMarket 1 (2 / 100) 100).opportunityDelta = 1 ∧
    (analyzeMarket thinMarginMarket 1 (2 / 100) 100).executed = false ∧
    ¬ ((2 : ℚ) / 100 <
        1 - (thinMarginMarket.yesPrice + thinMarginMarket.noPrice)) := by
  refine ⟨?_, ?_, by norm_num [thinMarginMarket]⟩
  · norm_num [analyzeMarket, thinMarginMarket]
  · norm_num [analyzeMarket, thinMarginMarket, decide_eq_false_iff_not]

/-- C9 amended: every snapshot with sufficient liquidity and
`pair_cost < target` is recorded as observed — logged with guaranteed
profit `1 - pair_cost` and counted in `opportunity_count` regardless of
margin — and execution is attempted iff the profit potential exceeds
`min_margin`. -/
theorem analyze_observed_logged_counted (m : Market)
    (targetCost minMargin minLiquidity : ℚ)
    (hliq : minLiquidity ≤ m.liquidity)
    (hpair : m.yesPrice + m.noPrice < targetCost) :
    (analyzeMarket m targetCost minMargin minLiquidity).loggedOpportunity =
      some (logDryRunOpportunity m.slug m.title m.yesPrice m.noPrice) ∧
    (logDryRunOpportunity m.slug m.title m.yesPrice m.noPrice).guaranteedProfit =
      1 - (m.yesPrice + m.noPrice) ∧
    (analyzeMarket m targetCost minMargin minLiquidity).opportunityDelta = 1 ∧
    ((analyzeMarket m targetCost minMargin minLiquidity).executed = true ↔
      minMargin < 1 - (m.yesPrice + m.noPrice)) := by
  have h1 : ¬ (m.liquidity < minLiquidity) := not_lt.mpr hliq
  refine ⟨?_, ?_, ?_, ?_⟩ <;>
    simp [analyzeMarket, logDryRunOpportunity, h1, hpair]

/-- A liquid market with a margin-passing opportunity (`profit = 0.05`). -/
def wideMarginMarket : Market :=
  { marketId := "m4", title := "Bitcoin Up or Down 6pm", description := "",
    yesPrice := 1 / 2, noPrice := 45 / 100, timestamp := 0, liquidity := 1000,
    volume24h := 0, conditionId := "c4", slug := "btc-6pm", endTime := none }

/-- Witness for C9 (amended) on a concrete liquid, margin-passing market. -/
theorem analyze_observed_logged_counted_witness :
    (analyzeMarket wideMarginMarket 1 (2 / 100) 100).loggedOpportunity =
      some (logDryRunOpportunity wideMarginMarket.slug wideMarginMarket.title
        wideMarginMarket.yesPrice wideMarginMarket.noPrice) ∧
    (logDryRunOpportunity wideMarginMarket.slug wideMarginMarket.title
        wideMarginMarket.yesPrice wideMarginMarket.noPrice).guaranteedProfit =
      1 - (wideMarginMarket.yesPrice + wideMarginMarket.noPrice) ∧
    (analyzeMarket wideMarginMarket 1 (2 / 100) 100).opportunityDelta = 1 ∧
    ((analyzeMarket wideMarginMarket 1 (2 / 100) 100).executed = true ↔
      (2 : ℚ) / 100 <
        1 - (wideMarginMarket.yesPrice + wideMarginMarket.noPrice)) :=
  analyze_observed_logged_counted wideMarginMarket 1 (2 / 100) 100
    (by norm_num [wideMarginMarket]) (by norm_num [wideMarginMarket])

/-- The scanner state touched by `_execute_arbitrage`: the position ledger
and the `trade_count` counter. -/
structure ScannerState where
  db : TrackerDB
  tradeCount : Nat
deriving Repr, DecidableEq

/-- Where `_execute_arbitrage` returned. -/
inductive ExecOutcome where
  | noExecutor
  | insufficientBalance
  | dryRunSkip (yesQty noQty yesSpend noSpend : ℚ)
  | yesOrderFailed (posId : Nat)
  | noOrderFailed (posId : Nat)
  | completed (posId : Nat)
deriving Repr, DecidableEq

/-- `GabagoolScanner._execute_arbitrage`.  The guards run in source order:
the `order_executor` presence check first (in dry-run mode the executor is
never constructed, so this guard fires before anything else), then the
wallet-balance check, then sizing, then the dry-run branch, then position
creation and the two order placements; `add_trade` is called for BOTH legs
only after both placements succeed.  The order placement results are given
as the optional hashes `yesOrderHash` / `noOrderHash` (`none` = rejected). -/
def executeArbitrage (dryRun executorReady : Bool)
    (walletBalance maxWalletUtilization tolerancePct : ℚ) (market : Market)
    (yesOrderHash noOrderHash : Option String) (st : ScannerState) :
    ScannerState × ExecOutcome :=
  if !executorReady then (st, ExecOutcome.noExecutor)
  else if walletBalance * maxWalletUtilization ≤ 0 then
    (st, ExecOutcome.insufficientBalance)
  else
    let r := calculateBalancedSize market.yesPrice market.noPrice
      (walletBalance * maxWalletUtilization) tolerancePct
    if dryRun then
      ({ db := st.db, tradeCount := st.tradeCount + 1 },
       ExecOutcome.dryRunSkip r.1 r.2.1 r.2.2.1 r.2.2.2)
    else
      let created := createPosition st.db market.marketId market.title
      match yesOrderHash with
      | none =>
        ({ db := created.1, tradeCount := st.tradeCount },
         ExecOutcome.yesOrderFailed created.2)
      | some yesHash =>
        match noOrderHash with
        | none =>
          ({ db := created.1, tradeCount := st.tradeCount },
           ExecOutcome.noOrderFailed created.2)
        | some noHash =>
          let after1 := applyAddTrade created.1 created.2 "YES" r.1
            market.yesPrice yesHash none
          let after2 := applyAddTrade after1.1 created.2 "NO" r.2.1
            market.noPrice noHash none
          ({ db := after2.1, tradeCount := st.tradeCount + 1 },
           ExecOutcome.completed created.2)

/-- An empty ledger. -/
def emptyTracker : TrackerDB :=
  { positions := [], trades := [], nextPositionId := 1 }

/-- A concrete actionable market used for the execution scenarios. -/
def sampleMarket : Market :=
  { marketId := "mkt-1", title := "Bitcoin Up or Down 5pm", description := "",
    yesPrice := 52 / 100, noPrice := 45 / 100, timestamp := 0,
    liquidity := 1000, volume24h := 0, conditionId := "c5",
    slug := "btc-5pm", endTime := none }

/-- C3 (code bug): in the reachable dry-run configuration the order
executor is never constructed, so `_execute_arbitrage` returns at the
`Order executor not initialized` guard — no balanced size is computed and
`trade_count` stays unchanged, contrary to the specified dry-run behavior.
The dedicated dry-run branch, which WOULD increment the counter after
sizing (second conjunct, with an executor artificially present), is dead
code. -/
theorem dry_run_returns_before_sizing :
    executeArbitrage true false 1000 (3 / 4) (5 / 100) sampleMarket none none
        { db := emptyTracker, tradeCount := 0 } =
      ({ db := emptyTracker, tradeCount := 0 }, ExecOutcome.noExecutor) ∧
    (executeArbitrage true true (1 / 100) 1 (1 / 2) sampleMarket none none
        { db := emptyTracker, tradeCount := 0 }).1.tradeCount = 1 := by
  constructor
  · rfl
  · simp only [executeArbitrage]
    rw [if_neg (by norm_num : ¬ ((1 : ℚ) / 100 * 1 ≤ 0))]
    rfl

/-- The position row created for `sampleMarket` by `create_position`. -/
def sampleMarketPos : Position :=
  { marketId := "mkt-1", marketTitle := "Bitcoin Up or Down 5pm",
    qtyYes := 0, costYes := 0, qtyNo := 0, costNo := 0,
    profitLocked := false }

/-- The ledger after the aborted execution of C5: one empty position, no
trade rows. -/
def oneSidedLedger : TrackerDB :=
  { positions := [(1, sampleMarketPos)], trades := [], nextPositionId := 2 }

/-- C5 (code bug): when the YES order is placed (a hash is returned) and
the NO order is rejected, `_execute_arbitrage` logs and returns before any
`add_trade` call, so the ledger keeps the freshly created position with
`qty_yes = 0`, `qty_no = 0` and NO trade rows: the one-sided YES exposure
is not recorded as an imbalanced position, contrary to the claim. -/
theorem one_sided_yes_fill_not_recorded :
    executeArbitrage false true 1000 (3 / 4) (5 / 100) sampleMarket
        (some "0xyes") none { db := emptyTracker, tradeCount := 0 } =
      ({ db := oneSidedLedger, tradeCount := 0 },
       ExecOutcome.noOrderFailed 1) := by
  simp only [executeArbitrage]
  rw [if_neg (by norm_num : ¬ ((1000 : ℚ) * (3 / 4) ≤ 0))]
  rfl

end PolyArb
